import Mathlib

/-!
Shallow embedding of the kitsu.py client library (src/kitsu/models.py and
src/kitsu/client.py): a JSON value type standing for parsed Python JSON
data, Python-style dictionary/sequence primitives with explicit exception
outcomes, the model classes Anime / Episode / Genre with their accessors,
and the Client request-processing and auth-state logic.
-/

namespace Kitsu

/-- Parsed JSON values, as produced by `response.json()` in Python.
Numbers are modelled as rationals (covering both JSON ints and decimals);
`null` doubles as Python's `None`, since `json.loads` maps JSON null to None. -/
inductive JSON where
  | null : JSON
  | bool : Bool → JSON
  | num : Rat → JSON
  | str : String → JSON
  | arr : List JSON → JSON
  | obj : List (String × JSON) → JSON
deriving Repr

/-- Python exception classes that the embedded code can raise. -/
inductive PyErr where
  | keyError
  | typeError
  | valueError
  | attributeError
  | indexError
deriving Repr, DecidableEq

/-- First-match lookup in an object's field list (dicts have unique keys). -/
def lookupField : List (String × JSON) → String → Option JSON
  | [], _ => none
  | (k, v) :: rest, key => if k = key then some v else lookupField rest key

/-- Python truthiness of a JSON value (`bool(x)`). -/
def JSON.truthy : JSON → Bool
  | .null => false
  | .bool b => b
  | .num q => if q = 0 then false else true
  | .str s => s ≠ ""
  | .arr xs => !xs.isEmpty
  | .obj fs => !fs.isEmpty

/-- `d[k]` with a string key: KeyError when the key is missing from a dict,
TypeError when `d` is not subscriptable by a string (None, bool, number,
string or list). -/
def pySubscript : JSON → String → Except PyErr JSON
  | .obj fs, k =>
    match lookupField fs k with
    | some v => .ok v
    | none => .error .keyError
  | _, _ => .error .typeError

/-- `d.get(k)`: the value, or None when absent; AttributeError when `d` is
not a dict (no `.get` attribute). -/
def pyGet : JSON → String → Except PyErr JSON
  | .obj fs, k => .ok ((lookupField fs k).getD .null)
  | _, _ => .error .attributeError

/-- `d.get(k, default)`: like `pyGet` with an explicit default. -/
def pyGetD : JSON → String → JSON → Except PyErr JSON
  | .obj fs, k, dflt => .ok ((lookupField fs k).getD dflt)
  | _, _, _ => .error .attributeError

/-- `x[0]`: first element of a list or string (IndexError when empty);
KeyError for a dict (JSON object keys are strings, never the int 0);
TypeError otherwise. -/
def pyIndex0 : JSON → Except PyErr JSON
  | .arr (x :: _) => .ok x
  | .arr [] => .error .indexError
  | .str s =>
    match s.data with
    | c :: _ => .ok (.str (String.mk [c]))
    | [] => .error .indexError
  | .obj _ => .error .keyError
  | _ => .error .typeError

/-- `iter(x)` as the list of values produced: elements of a list, one-char
strings of a string, keys of a dict; TypeError otherwise. -/
def pyIter : JSON → Except PyErr (List JSON)
  | .arr xs => .ok xs
  | .str s => .ok (s.data.map (fun c => .str (String.mk [c])))
  | .obj fs => .ok (fs.map (fun f => .str f.1))
  | _ => .error .typeError

/-- `len(x)` for sized values; TypeError otherwise. -/
def pyLen : JSON → Except PyErr Nat
  | .arr xs => .ok xs.length
  | .str s => .ok s.length
  | .obj fs => .ok fs.length
  | _ => .error .typeError

/-- Numeric value of a digit list (most significant first). -/
def digitsVal (cs : List Char) : Nat :=
  cs.foldl (fun n c => n * 10 + (c.toNat - 48)) 0

/-- Unsigned decimal literal: `digits`, `digits.digits`, `digits.` or
`.digits`. (Exponents, underscores, inf and nan are outside this model;
no embedded payload uses them.) -/
def parseUnsignedDec (cs : List Char) : Option Rat :=
  match cs.span Char.isDigit with
  | (ip, []) => if ip.isEmpty then none else some (digitsVal ip : Rat)
  | (ip, '.' :: fp) =>
    if fp.all Char.isDigit && (!ip.isEmpty || !fp.isEmpty) then
      some ((digitsVal ip : Rat) + (digitsVal fp : Rat) / ((10 : Rat) ^ fp.length))
    else none
  | _ => none

/-- Leading and trailing whitespace stripped from a character list
(`int` and `float` accept surrounding whitespace). -/
def trimChars (cs : List Char) : List Char :=
  ((cs.dropWhile Char.isWhitespace).reverse.dropWhile Char.isWhitespace).reverse

/-- Decimal literal with optional sign, as accepted by Python's `float(str)`
after stripping whitespace. -/
def parseDec (s : String) : Option Rat :=
  match trimChars s.data with
  | '-' :: rest => (parseUnsignedDec rest).map (fun q => -q)
  | '+' :: rest => parseUnsignedDec rest
  | cs => parseUnsignedDec cs

/-- Integer literal with optional sign, as accepted by Python's `int(str)`
after stripping whitespace (a decimal point makes it a ValueError). -/
def parseIntStr (s : String) : Option Int :=
  match trimChars s.data with
  | '-' :: rest =>
    if rest.all Char.isDigit && !rest.isEmpty then some (-(digitsVal rest : Int)) else none
  | '+' :: rest =>
    if rest.all Char.isDigit && !rest.isEmpty then some (digitsVal rest : Int) else none
  | cs => if cs.all Char.isDigit && !cs.isEmpty then some (digitsVal cs : Int) else none

/-- `float(x)`: numbers pass through, bools coerce to 0/1, decimal strings
parse (ValueError otherwise), everything else is a TypeError. -/
def pyFloat : JSON → Except PyErr JSON
  | .num q => .ok (.num q)
  | .bool b => .ok (.num (if b then 1 else 0))
  | .str s =>
    match parseDec s with
    | some q => .ok (.num q)
    | none => .error .valueError
  | _ => .error .typeError

/-- Truncation toward zero, Python's `int(float)`. -/
def ratTrunc (q : Rat) : Int :=
  Int.tdiv q.num (Int.ofNat q.den)

/-- `int(x)`: numbers truncate toward zero, bools coerce to 0/1, integer
strings parse (ValueError otherwise), everything else is a TypeError. -/
def pyInt : JSON → Except PyErr Int
  | .num q => .ok (ratTrunc q)
  | .bool b => .ok (if b then 1 else 0)
  | .str s =>
    match parseIntStr s with
    | some n => .ok n
    | none => .error .valueError
  | _ => .error .typeError

/-- Wrap `r`, turning a raised KeyError into the default `dflt`
(Python's `try: ... except KeyError: return dflt`). -/
def catchKeyD (dflt : JSON) (r : Except PyErr JSON) : Except PyErr JSON :=
  match r with
  | .error .keyError => .ok dflt
  | r => r

/-- Wrap `r`, turning a raised KeyError or TypeError into None
(Python's `except (KeyError, TypeError): return None`). -/
def catchKT (r : Except PyErr JSON) : Except PyErr JSON :=
  match r with
  | .error .keyError => .ok .null
  | .error .typeError => .ok .null
  | r => r

/-- `payload["attributes"][k]`, the lookup at the heart of every accessor. -/
def attrGet (p : JSON) (k : String) : Except PyErr JSON :=
  (pySubscript p "attributes").bind (fun a => pySubscript a k)

/-- models.Genre: stores the payload as given. -/
structure Genre where
  _payload : JSON
deriving Repr

/-- models.Episode: stores the payload as given. -/
structure Episode where
  _payload : JSON
deriving Repr

/-- models.Anime: `__init__` sets `_payload = payload.get("data", {}) or payload`
and `_included_payload = payload.get("included", [])`.

The datetime accessors (`created_at`, `updated_at`, `start_date`, `end_date`
on Anime; `created_at`, `updated_at`, `air_date` on Episode) delegate to the
external date parsers (`dateutil.parser.isoparse`, `datetime.strptime`)
inside the same `except (KeyError, TypeError)` guard as the numeric
accessors; the parsers are external collaborators and are not embedded. -/
structure Anime where
  _payload : JSON
  _included_payload : JSON
deriving Repr

/-- `Anime.__init__(payload)`: raises AttributeError (from `.get`) when the
payload is not a mapping; otherwise builds the model. -/
def Anime.init (payload : JSON) : Except PyErr Anime := do
  let d ← pyGetD payload "data" (.obj [])
  let inc ← pyGetD payload "included" (.arr [])
  .ok { _payload := if d.truthy then d else payload, _included_payload := inc }

/-- `Anime.id`: `self._payload.get("id", "")`. -/
def Anime.id (a : Anime) : Except PyErr JSON :=
  pyGetD a._payload "id" (.str "")

/-- `Anime.slug`: attributes lookup, `except KeyError: return None`. -/
def Anime.slug (a : Anime) : Except PyErr JSON :=
  catchKeyD .null (attrGet a._payload "slug")

/-- `Anime.synopsis`. -/
def Anime.synopsis (a : Anime) : Except PyErr JSON :=
  catchKeyD .null (attrGet a._payload "synopsis")

/-- `Anime.canonical_title`. -/
def Anime.canonical_title (a : Anime) : Except PyErr JSON :=
  catchKeyD .null (attrGet a._payload "canonicalTitle")

/-- The `for key in _TITLE_PRIORITY: if titles.get(key): return titles[key]`
loop of `Anime.title`; `ok none` means the loop fell through. -/
def titleLoop (titles : JSON) : List String → Except PyErr (Option JSON)
  | [] => .ok none
  | k :: rest => do
    let v ← pyGet titles k
    if v.truthy then
      let w ← pySubscript titles k
      .ok (some w)
    else
      titleLoop titles rest

/-- `Anime.title`: priority lookup over the titles map, falling back to
`canonical_title` when the loop finds nothing; `except KeyError: return None`
around the whole body. -/
def Anime.title (a : Anime) : Except PyErr JSON :=
  catchKeyD .null (do
    let titles ← attrGet a._payload "titles"
    match ← titleLoop titles ["en", "en_jp", "ja_jp"] with
    | some v => .ok v
    | none => a.canonical_title)

/-- `Anime.japanese_title`: `titles.get("en_jp")`, `except KeyError: None`. -/
def Anime.japanese_title (a : Anime) : Except PyErr JSON :=
  catchKeyD .null ((attrGet a._payload "titles").bind (fun t => pyGet t "en_jp"))

/-- `Anime.romaji_title`: `titles.get("ja_jp")`, `except KeyError: None`. -/
def Anime.romaji_title (a : Anime) : Except PyErr JSON :=
  catchKeyD .null ((attrGet a._payload "titles").bind (fun t => pyGet t "ja_jp"))

/-- `Anime.abbreviated_titles`: `except KeyError: return []`. -/
def Anime.abbreviated_titles (a : Anime) : Except PyErr JSON :=
  catchKeyD (.arr []) (attrGet a._payload "abbreviatedTitles")

/-- `Anime.average_rating`: `float(...)`, `except (KeyError, TypeError): None`. -/
def Anime.average_rating (a : Anime) : Except PyErr JSON :=
  catchKT ((attrGet a._payload "averageRating").bind pyFloat)

/-- `Anime.rating_frequencies`: `except KeyError: None`. -/
def Anime.rating_frequencies (a : Anime) : Except PyErr JSON :=
  catchKeyD .null (attrGet a._payload "ratingFrequencies")

/-- `Anime.user_count`: `int(...)`, `except (KeyError, TypeError): None`. -/
def Anime.user_count (a : Anime) : Except PyErr JSON :=
  catchKT ((attrGet a._payload "userCount").bind (fun v => (pyInt v).map (fun n => .num n)))

/-- `Anime.favorites_count`. -/
def Anime.favorites_count (a : Anime) : Except PyErr JSON :=
  catchKT ((attrGet a._payload "favoritesCount").bind (fun v => (pyInt v).map (fun n => .num n)))

/-- `Anime.popularity_rank`. -/
def Anime.popularity_rank (a : Anime) : Except PyErr JSON :=
  catchKT ((attrGet a._payload "popularityRank").bind (fun v => (pyInt v).map (fun n => .num n)))

/-- `Anime.rating_rank`. -/
def Anime.rating_rank (a : Anime) : Except PyErr JSON :=
  catchKT ((attrGet a._payload "ratingRank").bind (fun v => (pyInt v).map (fun n => .num n)))

/-- `Anime.age_rating`: `except KeyError: None`. -/
def Anime.age_rating (a : Anime) : Except PyErr JSON :=
  catchKeyD .null (attrGet a._payload "ageRating")

/-- `Anime.age_rating_guide`. -/
def Anime.age_rating_guide (a : Anime) : Except PyErr JSON :=
  catchKeyD .null (attrGet a._payload "ageRatingGuide")

/-- `Anime.subtype`. -/
def Anime.subtype (a : Anime) : Except PyErr JSON :=
  catchKeyD .null (attrGet a._payload "subtype")

/-- `Anime.status`. -/
def Anime.status (a : Anime) : Except PyErr JSON :=
  catchKeyD .null (attrGet a._payload "status")

/-- `Anime.tba`. -/
def Anime.tba (a : Anime) : Except PyErr JSON :=
  catchKeyD .null (attrGet a._payload "tba")

/-- `Anime.poster_image(t)`: `self._payload["attributes"]["posterImage"].get(t)`
with only AttributeError caught — a missing `attributes` key raises KeyError. -/
def Anime.poster_image (a : Anime) (t : String) : Except PyErr JSON :=
  match (attrGet a._payload "posterImage").bind (fun img => pyGet img t) with
  | .error .attributeError => .ok .null
  | r => r

/-- `Anime.cover_image(t)`: same shape as `poster_image`. -/
def Anime.cover_image (a : Anime) (t : String) : Except PyErr JSON :=
  match (attrGet a._payload "coverImage").bind (fun img => pyGet img t) with
  | .error .attributeError => .ok .null
  | r => r

/-- `Anime.episode_count`: `int(...)`, `except (KeyError, TypeError): None`. -/
def Anime.episode_count (a : Anime) : Except PyErr JSON :=
  catchKT ((attrGet a._payload "episodeCount").bind (fun v => (pyInt v).map (fun n => .num n)))

/-- `Anime.episode_length`. -/
def Anime.episode_length (a : Anime) : Except PyErr JSON :=
  catchKT ((attrGet a._payload "episodeLength").bind (fun v => (pyInt v).map (fun n => .num n)))

/-- `Anime.total_length`. -/
def Anime.total_length (a : Anime) : Except PyErr JSON :=
  catchKT ((attrGet a._payload "totalLength").bind (fun v => (pyInt v).map (fun n => .num n)))

/-- `Anime.yt_video_id`. -/
def Anime.yt_video_id (a : Anime) : Except PyErr JSON :=
  catchKeyD .null (attrGet a._payload "youtubeVideoId")

/-- `Anime.nsfw`: `except KeyError: return False`. -/
def Anime.nsfw (a : Anime) : Except PyErr JSON :=
  catchKeyD (.bool false) (attrGet a._payload "nsfw")

/-- `Anime.raw`: returns the captured payload; never raises. -/
def Anime.raw (a : Anime) : JSON :=
  a._payload

/-- Python `item["type"] == "genres"`: equality of a JSON value with the
string literal (False for any non-string value). -/
def isTypeTag (tag : String) : JSON → Bool
  | .str s => s = tag
  | _ => false

/-- The `[Genre(item) for item in included if item["type"] == "genres"]`
comprehension: the first item whose `["type"]` subscript fails raises. -/
def genresLoop : List JSON → Except PyErr (List Genre)
  | [] => .ok []
  | item :: rest => do
    let t ← pySubscript item "type"
    let tail ← genresLoop rest
    if isTypeTag "genres" t then .ok (⟨item⟩ :: tail) else .ok tail

/-- `Anime.genres` (property): `included = self._included_payload or []`, then
the comprehension over it. No exception handling; never touches a session. -/
def Anime.genres (a : Anime) : Except PyErr (List Genre) := do
  let included := if a._included_payload.truthy then a._included_payload else .arr []
  let items ← pyIter included
  genresLoop items

/-- The `[Episode(item) for item in included if item["type"] == "episodes"]`
comprehension of `Anime.episodes`. -/
def episodesLoop : List JSON → Except PyErr (List Episode)
  | [] => .ok []
  | item :: rest => do
    let t ← pySubscript item "type"
    let tail ← episodesLoop rest
    if isTypeTag "episodes" t then .ok (⟨item⟩ :: tail) else .ok tail

/-- `Anime.episodes`: like `genres` but wrapped in
`except KeyError / except TypeError: return []`. -/
def Anime.episodes (a : Anime) : Except PyErr (List Episode) :=
  match (do
      let included := if a._included_payload.truthy then a._included_payload else .arr []
      let items ← pyIter included
      episodesLoop items : Except PyErr (List Episode)) with
  | .error .keyError => .ok []
  | .error .typeError => .ok []
  | r => r

/-- `Episode.id`: `self._payload.get("id", "")`. -/
def Episode.id (e : Episode) : Except PyErr JSON :=
  pyGetD e._payload "id" (.str "")

/-- `Episode.synopsis`: `except KeyError: None`. -/
def Episode.synopsis (e : Episode) : Except PyErr JSON :=
  catchKeyD .null (attrGet e._payload "synopsis")

/-- `Episode.description`. -/
def Episode.description (e : Episode) : Except PyErr JSON :=
  catchKeyD .null (attrGet e._payload "description")

/-- `Episode.number`: `int(...)`, `except (KeyError, TypeError): None`
(a ValueError from `int` on a malformed string propagates). -/
def Episode.number (e : Episode) : Except PyErr (Option Int) :=
  match (attrGet e._payload "number").bind pyInt with
  | .ok n => .ok (some n)
  | .error .keyError => .ok none
  | .error .typeError => .ok none
  | .error err => .error err

/-- The `f"Episode {self.number}" if self.number else None` fallback shared by
the Episode title accessors; `self.number` is truthy when nonzero. -/
def Episode.title_fallback (e : Episode) : Except PyErr JSON := do
  match ← e.number with
  | some n => if n = 0 then .ok .null else .ok (.str ("Episode " ++ toString n))
  | none => .ok .null

/-- `Episode.english_title`: `titles.get("en_us")`; on KeyError the fallback
string runs instead. -/
def Episode.english_title (e : Episode) : Except PyErr JSON :=
  match (attrGet e._payload "titles").bind (fun t => pyGet t "en_us") with
  | .error .keyError => e.title_fallback
  | r => r

/-- `Episode.japanese_title`: `titles.get("en_jp")` with the same fallback. -/
def Episode.japanese_title (e : Episode) : Except PyErr JSON :=
  match (attrGet e._payload "titles").bind (fun t => pyGet t "en_jp") with
  | .error .keyError => e.title_fallback
  | r => r

/-- `Episode.romaji_title`: `titles.get("ja_jp")` with the same fallback. -/
def Episode.romaji_title (e : Episode) : Except PyErr JSON :=
  match (attrGet e._payload "titles").bind (fun t => pyGet t "ja_jp") with
  | .error .keyError => e.title_fallback
  | r => r

/-- `Episode.canonical_title`: attributes lookup with the same fallback. -/
def Episode.canonical_title (e : Episode) : Except PyErr JSON :=
  match attrGet e._payload "canonicalTitle" with
  | .error .keyError => e.title_fallback
  | r => r

/-- `Episode.season`: `int(...)`, `except (KeyError, TypeError): None`. -/
def Episode.season (e : Episode) : Except PyErr JSON :=
  catchKT ((attrGet e._payload "seasonNumber").bind (fun v => (pyInt v).map (fun n => .num n)))

/-- `Episode.relative_number`. -/
def Episode.relative_number (e : Episode) : Except PyErr JSON :=
  catchKT ((attrGet e._payload "relativeNumber").bind (fun v => (pyInt v).map (fun n => .num n)))

/-- `Episode.length`. -/
def Episode.length (e : Episode) : Except PyErr JSON :=
  catchKT ((attrGet e._payload "length").bind (fun v => (pyInt v).map (fun n => .num n)))

/-- `Episode.thumbnail`: `...["thumbnail"]["original"]`,
`except (KeyError, TypeError): None`. -/
def Episode.thumbnail (e : Episode) : Except PyErr JSON :=
  catchKT ((attrGet e._payload "thumbnail").bind (fun t => pySubscript t "original"))

/-- `Episode.raw`. -/
def Episode.raw (e : Episode) : JSON :=
  e._payload

/-- `Genre.id`: `self._payload.get("id", "")`. -/
def Genre.id (g : Genre) : Except PyErr JSON :=
  pyGetD g._payload "id" (.str "")

/-- `Genre.name`: `except KeyError: None`. -/
def Genre.name (g : Genre) : Except PyErr JSON :=
  catchKeyD .null (attrGet g._payload "name")

/-- `Genre.slug`: `except KeyError: None`. -/
def Genre.slug (g : Genre) : Except PyErr JSON :=
  catchKeyD .null (attrGet g._payload "slug")

/-- `Genre.raw`. -/
def Genre.raw (g : Genre) : JSON :=
  g._payload

/-- An HTTP response as the client code observes it: the status code, the
body parsed as JSON (`await response.json()`), and the raw body text
(`await response.text()`). -/
structure Response where
  status : Nat
  body : JSON
  text : String
deriving Repr

/-- The errors client methods can raise: the kitsu.errors exception classes
(each carrying the message value extracted from the body, or the raw text
and status for HTTPException), plus Python-level exceptions escaping from
the extraction code itself. -/
inductive ApiError where
  | badRequest : JSON → ApiError
  | unauthorized : JSON → ApiError
  | forbidden : JSON → ApiError
  | notFound : JSON → ApiError
  | httpException : String → Nat → ApiError
  | pyError : PyErr → ApiError
deriving Repr

/-- `data["errors"][0]["detail"]`, the message extraction used for 400 and
404 resource errors. -/
def extractDetail (b : JSON) : Except PyErr JSON :=
  (pySubscript b "errors").bind (fun e => (pyIndex0 e).bind (fun f => pySubscript f "detail"))

/-- Raise `mk m` when the message extraction succeeded, else let the
extraction's own Python exception propagate. -/
def raiseWith (mk : JSON → ApiError) (r : Except PyErr JSON) : Except ApiError JSON :=
  match r with
  | .ok m => .error (mk m)
  | .error e => .error (.pyError e)

/-- `Client._get`: 200 returns the parsed body; 400/401/403/404 raise the
mapped kitsu.errors class with the extracted message; anything else raises
HTTPException with the raw text and status. -/
def Client._get (r : Response) : Except ApiError JSON :=
  if r.status = 200 then .ok r.body
  else if r.status = 400 then raiseWith .badRequest (extractDetail r.body)
  else if r.status = 401 then raiseWith .unauthorized (pySubscript r.body "error_description")
  else if r.status = 403 then raiseWith .forbidden (pySubscript r.body "error_description")
  else if r.status = 404 then raiseWith .notFound (extractDetail r.body)
  else .error (.httpException r.text r.status)

/-- `Client._post`: 200 returns the parsed body; 400 and 404 raise with the
body's `error_description`; anything else raises HTTPException. -/
def Client._post (r : Response) : Except ApiError JSON :=
  if r.status = 200 then .ok r.body
  else if r.status = 400 then raiseWith .badRequest (pySubscript r.body "error_description")
  else if r.status = 404 then raiseWith .notFound (pySubscript r.body "error_description")
  else .error (.httpException r.text r.status)

/-- Keyword parameters accepted by `models.Anime.__init__` (besides self). -/
def animeInitParams : List String := ["payload"]

/-- Python call semantics for `Anime(...)` as invoked by client.py: binding an
argument to a keyword the signature does not declare raises TypeError before
the constructor body runs. client.py passes `client=self`; the client object
is not a JSON value, so the call site supplies a placeholder for it — the
value is never bound, only the keyword name matters. -/
def animeInitCall (kwargs : List (String × JSON)) : Except PyErr Anime :=
  if kwargs.all (fun kv => animeInitParams.contains kv.1) then
    match lookupField kwargs "payload" with
    | some p => Anime.init p
    | none => .error .typeError
  else .error .typeError

/-- `Client.get_anime` applied to the HTTP response: on 200 evaluates
`Anime(payload=data["data"], client=self)`. -/
def Client.get_anime (resp : Response) : Except ApiError Anime :=
  match Client._get resp with
  | .error e => .error e
  | .ok d =>
    match pySubscript d "data" with
    | .error e => .error (.pyError e)
    | .ok obj =>
      match animeInitCall [("payload", obj), ("client", .null)] with
      | .ok a => .ok a
      | .error e => .error (.pyError e)

/-- `Client.get_anime_genres` applied to the HTTP response:
`[Genre(genre) for genre in data["data"]]`. -/
def Client.get_anime_genres (resp : Response) : Except ApiError (List Genre) :=
  match Client._get resp with
  | .error e => .error e
  | .ok d =>
    match pySubscript d "data" with
    | .error e => .error (.pyError e)
    | .ok arrj =>
      match pyIter arrj with
      | .error e => .error (.pyError e)
      | .ok items => .ok (items.map (fun item => ⟨item⟩))

/-- `Client.search_anime` applied to the HTTP response: empty `data` returns
`[]`; a one-element `data` evaluates `Anime(data["data"][0], client=self)`;
otherwise each element is passed to `Anime(anime, client=self)`. -/
def Client.search_anime (resp : Response) : Except ApiError (List Anime) :=
  match Client._get resp with
  | .error e => .error e
  | .ok d =>
    match pySubscript d "data" with
    | .error e => .error (.pyError e)
    | .ok arrj =>
      if arrj.truthy = false then .ok []
      else
        match pyLen arrj with
        | .error e => .error (.pyError e)
        | .ok n =>
          if n = 1 then
            match pyIndex0 arrj with
            | .error e => .error (.pyError e)
            | .ok x =>
              match animeInitCall [("payload", x), ("client", .null)] with
              | .ok a => .ok [a]
              | .error e => .error (.pyError e)
          else
            match pyIter arrj with
            | .error e => .error (.pyError e)
            | .ok items =>
              match items.mapM (fun j => animeInitCall [("payload", j), ("client", .null)]) with
              | .ok as0 => .ok as0
              | .error e => .error (.pyError e)

/-- The client's auth state: `_token`, `_refresh_token` (any JSON value the
server returned) and `_token_expires` (modelled as epoch seconds). All three
start as None. -/
structure ClientState where
  _token : Option JSON
  _refresh_token : Option JSON
  _token_expires : Option Rat
deriving Repr

/-- `datetime.fromtimestamp(x)`: accepts numbers (bools coerce); TypeError
otherwise. The result is kept as epoch seconds. -/
def pyTimestamp : JSON → Except PyErr Rat
  | .num q => .ok q
  | .bool b => .ok (if b then 1 else 0)
  | _ => .error .typeError

/-- `timedelta(seconds=x)`: accepts numbers (bools coerce); TypeError
otherwise. The result is kept as seconds. -/
def pySeconds : JSON → Except PyErr Rat
  | .num q => .ok q
  | .bool b => .ok (if b then 1 else 0)
  | _ => .error .typeError

/-- The token-storage statements shared verbatim by `authenticate` and
`refresh_token`, executed in program order on a 200 body `d`: each field is
assigned before the next line runs, so a later exception leaves the earlier
assignments in place. Returns the state after execution and the exception,
if one was raised. -/
def authSetTokens (st : ClientState) (d : JSON) : ClientState × Option PyErr :=
  match pySubscript d "access_token" with
  | .error e => (st, some e)
  | .ok tok =>
    let st1 := { st with _token := some tok }
    match pySubscript d "refresh_token" with
    | .error e => (st1, some e)
    | .ok ref =>
      let st2 := { st1 with _refresh_token := some ref }
      match (pySubscript d "created_at").bind pyTimestamp with
      | .error e => (st2, some e)
      | .ok c =>
        match (pySubscript d "expires_in").bind pySeconds with
        | .error e => (st2, some e)
        | .ok s => ({ st2 with _token_expires := some (c + s) }, none)

/-- `Client.authenticate` applied to the token-exchange response: a failed
POST raises before any assignment; a 200 body runs the storage statements. -/
def Client.authenticate (st : ClientState) (resp : Response) : ClientState × Option ApiError :=
  match Client._post resp with
  | .error e => (st, some e)
  | .ok d =>
    match authSetTokens st d with
    | (st2, some e) => (st2, some (.pyError e))
    | (st2, none) => (st2, none)

/-- `Client.refresh_token` applied to the token-exchange response: the
response handling and storage statements are literally the same lines as in
`authenticate`. -/
def Client.refresh_token (st : ClientState) (resp : Response) : ClientState × Option ApiError :=
  match Client._post resp with
  | .error e => (st, some e)
  | .ok d =>
    match authSetTokens st d with
    | (st2, some e) => (st2, some (.pyError e))
    | (st2, none) => (st2, none)

/-! Specification-side descriptions, used to state the amended claims. -/

/-- First truthy value among the given keys of a titles field list —
the loop of `Anime.title` described directly on the field list. -/
def firstTruthy (ts : List (String × JSON)) : List String → Option JSON
  | [] => none
  | k :: rest =>
    match lookupField ts k with
    | some v => if v.truthy then some v else firstTruthy ts rest
    | none => firstTruthy ts rest

/-- Whether an included item carries `"type": "genres"` (False when the
lookup would fail is irrelevant here: used only under a hypothesis that the
lookup succeeds). -/
def hasGenresTag (item : JSON) : Bool :=
  match pySubscript item "type" with
  | .ok t => isTypeTag "genres" t
  | .error _ => false

/-- The Episode title fallback value for a number that parsed to `n`:
`"Episode n"` when `n` is truthy (nonzero), otherwise None. -/
def episodeTag (n : Int) : JSON :=
  if n = 0 then .null else .str ("Episode " ++ toString n)

/-! Helper lemmas. -/

@[simp] theorem exceptBind_ok {α β ε : Type} (x : α) (f : α → Except ε β) :
    Except.bind (Except.ok x) f = f x := rfl

@[simp] theorem exceptBind_error {α β ε : Type} (e : ε) (f : α → Except ε β) :
    Except.bind (Except.error e : Except ε α) f = Except.error e := rfl

@[simp] theorem monadBind_ok {α β ε : Type} (x : α) (f : α → Except ε β) :
    (Except.ok x : Except ε α) >>= f = f x := rfl

@[simp] theorem monadBind_error {α β ε : Type} (e : ε) (f : α → Except ε β) :
    (Except.error e : Except ε α) >>= f = Except.error e := rfl

@[simp] theorem exceptMap_ok {α β ε : Type} (x : α) (f : α → β) :
    Except.map f (Except.ok x : Except ε α) = Except.ok (f x) := rfl

@[simp] theorem exceptMap_error {α β ε : Type} (e : ε) (f : α → β) :
    Except.map f (Except.error e : Except ε α) = Except.error e := rfl

theorem pySubscript_obj (fs : List (String × JSON)) (k : String) :
    pySubscript (.obj fs) k =
      (match lookupField fs k with
       | some v => .ok v
       | none => .error .keyError) := rfl

theorem attrGet_missing (fs : List (String × JSON)) (k : String)
    (h : lookupField fs "attributes" = none) :
    attrGet (.obj fs) k = .error .keyError := by
  simp [attrGet, pySubscript_obj, h]

theorem attrGet_found (fs ats : List (String × JSON)) (k : String)
    (h : lookupField fs "attributes" = some (.obj ats)) :
    attrGet (.obj fs) k =
      (match lookupField ats k with
       | some v => .ok v
       | none => .error .keyError) := by
  simp [attrGet, pySubscript_obj, h]

/-! The claims. -/

/-- Claim C1 counterexample: with a mapping payload whose `attributes` value
is null, `Anime.slug` raises TypeError (subscripting None), even though the
payload is structurally valid at the top level — only KeyError is caught
there, so a null or wrong-typed intermediate is not degraded to a default. -/
theorem C1_counterexample :
    Anime.init (JSON.obj [("attributes", JSON.null)])
        = .ok ⟨JSON.obj [("attributes", JSON.null)], JSON.arr []⟩
    ∧ Anime.slug ⟨JSON.obj [("attributes", JSON.null)], JSON.arr []⟩ = .error .typeError :=
  ⟨rfl, rfl⟩

/-- Claim C1 as amended: every accessor of Anime, Episode and Genre returns
its documented default — None, empty sequence, empty-string id, or False —
when the key it reads is missing from a mapping payload, and never raises in
that case; totality does not extend to null or wrong-typed intermediates
(see the counterexample), and `poster_image` / `cover_image`, which catch
only AttributeError, raise KeyError outright when `attributes` is missing. -/
theorem C1_defaults_on_missing_attributes
    (a : Anime) (e : Episode) (g : Genre)
    (fs es gs : List (String × JSON))
    (hpa : a._payload = .obj fs) (hfa : lookupField fs "attributes" = none)
    (hia : lookupField fs "id" = none)
    (hinc : a._included_payload = JSON.arr [])
    (hpe : e._payload = .obj es) (hea : lookupField es "attributes" = none)
    (hie : lookupField es "id" = none)
    (hpg : g._payload = .obj gs) (hga : lookupField gs "attributes" = none)
    (hig : lookupField gs "id" = none) :
    Anime.slug a = .ok .null
    ∧ Anime.average_rating a = .ok .null
    ∧ Anime.nsfw a = .ok (.bool false)
    ∧ Anime.abbreviated_titles a = .ok (.arr [])
    ∧ Episode.number e = .ok none
    ∧ Genre.name g = .ok .null
    ∧ Anime.id a = .ok (.str "")
    ∧ Anime.synopsis a = .ok .null
    ∧ Anime.title a = .ok .null
    ∧ Anime.canonical_title a = .ok .null
    ∧ Anime.japanese_title a = .ok .null
    ∧ Anime.romaji_title a = .ok .null
    ∧ Anime.rating_frequencies a = .ok .null
    ∧ Anime.user_count a = .ok .null
    ∧ Anime.favorites_count a = .ok .null
    ∧ Anime.popularity_rank a = .ok .null
    ∧ Anime.rating_rank a = .ok .null
    ∧ Anime.age_rating a = .ok .null
    ∧ Anime.age_rating_guide a = .ok .null
    ∧ Anime.subtype a = .ok .null
    ∧ Anime.status a = .ok .null
    ∧ Anime.tba a = .ok .null
    ∧ Anime.episode_count a = .ok .null
    ∧ Anime.episode_length a = .ok .null
    ∧ Anime.total_length a = .ok .null
    ∧ Anime.yt_video_id a = .ok .null
    ∧ Anime.episodes a = .ok []
    ∧ Anime.genres a = .ok []
    ∧ (∀ t, Anime.poster_image a t = .error .keyError)
    ∧ (∀ t, Anime.cover_image a t = .error .keyError)
    ∧ Episode.id e = .ok (.str "")
    ∧ Episode.synopsis e = .ok .null
    ∧ Episode.description e = .ok .null
    ∧ Episode.english_title e = .ok .null
    ∧ Episode.japanese_title e = .ok .null
    ∧ Episode.romaji_title e = .ok .null
    ∧ Episode.canonical_title e = .ok .null
    ∧ Episode.season e = .ok .null
    ∧ Episode.relative_number e = .ok .null
    ∧ Episode.length e = .ok .null
    ∧ Episode.thumbnail e = .ok .null
    ∧ Genre.id g = .ok (.str "")
    ∧ Genre.slug g = .ok .null := by
  have hA : ∀ k, attrGet a._payload k = .error .keyError := fun k => by
    rw [hpa]; exact attrGet_missing fs k hfa
  have hE : ∀ k, attrGet e._payload k = .error .keyError := fun k => by
    rw [hpe]; exact attrGet_missing es k hea
  have hG : ∀ k, attrGet g._payload k = .error .keyError := fun k => by
    rw [hpg]; exact attrGet_missing gs k hga
  refine ⟨?_, ?_, ?_, ?_, ?_, ?_, ?_, ?_, ?_, ?_, ?_, ?_, ?_, ?_, ?_, ?_, ?_, ?_, ?_, ?_,
    ?_, ?_, ?_, ?_, ?_, ?_, ?_, ?_, ?_, ?_, ?_, ?_, ?_, ?_, ?_, ?_, ?_, ?_, ?_, ?_, ?_, ?_, ?_⟩
  · simp [Anime.slug, catchKeyD, hA]
  · simp [Anime.average_rating, catchKT, hA]
  · simp [Anime.nsfw, catchKeyD, hA]
  · simp [Anime.abbreviated_titles, catchKeyD, hA]
  · simp [Episode.number, hE]
  · simp [Genre.name, catchKeyD, hG]
  · simp [Anime.id, hpa, pyGetD, hia]
  · simp [Anime.synopsis, catchKeyD, hA]
  · simp [Anime.title, catchKeyD, hA]
  · simp [Anime.canonical_title, catchKeyD, hA]
  · simp [Anime.japanese_title, catchKeyD, hA]
  · simp [Anime.romaji_title, catchKeyD, hA]
  · simp [Anime.rating_frequencies, catchKeyD, hA]
  · simp [Anime.user_count, catchKT, hA]
  · simp [Anime.favorites_count, catchKT, hA]
  · simp [Anime.popularity_rank, catchKT, hA]
  · simp [Anime.rating_rank, catchKT, hA]
  · simp [Anime.age_rating, catchKeyD, hA]
  · simp [Anime.age_rating_guide, catchKeyD, hA]
  · simp [Anime.subtype, catchKeyD, hA]
  · simp [Anime.status, catchKeyD, hA]
  · simp [Anime.tba, catchKeyD, hA]
  · simp [Anime.episode_count, catchKT, hA]
  · simp [Anime.episode_length, catchKT, hA]
  · simp [Anime.total_length, catchKT, hA]
  · simp [Anime.yt_video_id, catchKeyD, hA]
  · simp [Anime.episodes, hinc, JSON.truthy, pyIter, episodesLoop]
  · simp [Anime.genres, hinc, JSON.truthy, pyIter, genresLoop]
  · intro t; simp [Anime.poster_image, hA]
  · intro t; simp [Anime.cover_image, hA]
  · simp [Episode.id, hpe, pyGetD, hie]
  · simp [Episode.synopsis, catchKeyD, hE]
  · simp [Episode.description, catchKeyD, hE]
  · simp [Episode.english_title, Episode.title_fallback, Episode.number, hE]
  · simp [Episode.japanese_title, Episode.title_fallback, Episode.number, hE]
  · simp [Episode.romaji_title, Episode.title_fallback, Episode.number, hE]
  · simp [Episode.canonical_title, Episode.title_fallback, Episode.number, hE]
  · simp [Episode.season, catchKT, hE]
  · simp [Episode.relative_number, catchKT, hE]
  · simp [Episode.length, catchKT, hE]
  · simp [Episode.thumbnail, catchKT, hE]
  · simp [Genre.id, hpg, pyGetD, hig]
  · simp [Genre.slug, catchKeyD, hG]

/-- Witness for the amended C1: the empty mapping payload yields every
default on a sample of the accessors. -/
theorem C1_witness :
    Anime.slug ⟨JSON.obj [], JSON.arr []⟩ = .ok .null
    ∧ Anime.average_rating ⟨JSON.obj [], JSON.arr []⟩ = .ok .null
    ∧ Anime.nsfw ⟨JSON.obj [], JSON.arr []⟩ = .ok (.bool false)
    ∧ Anime.abbreviated_titles ⟨JSON.obj [], JSON.arr []⟩ = .ok (.arr [])
    ∧ Episode.number ⟨JSON.obj []⟩ = .ok none
    ∧ Genre.name ⟨JSON.obj []⟩ = .ok .null := by
  have h := C1_defaults_on_missing_attributes ⟨JSON.obj [], JSON.arr []⟩ ⟨JSON.obj []⟩ ⟨JSON.obj []⟩
    [] [] [] rfl rfl rfl rfl rfl rfl rfl rfl rfl rfl
  exact ⟨h.1, h.2.1, h.2.2.1, h.2.2.2.1, h.2.2.2.2.1, h.2.2.2.2.2.1⟩

/-- Claim C3 (code bug): `get_anime` cannot wrap the `data` object of a 200
response — client.py evaluates `Anime(payload=data["data"], client=self)`,
but `models.Anime.__init__` declares no `client` parameter, so the call
raises TypeError instead of constructing the model; `Anime.init` applied
directly to the same `data` object would have succeeded and captured it. -/
theorem C3_get_anime_raises_type_error :
    Client.get_anime ⟨200, JSON.obj [("data", JSON.obj [("id", JSON.str "1"), ("type", JSON.str "anime")])], ""⟩
        = .error (.pyError .typeError)
    ∧ Anime.init (JSON.obj [("id", JSON.str "1"), ("type", JSON.str "anime")])
        = .ok ⟨JSON.obj [("id", JSON.str "1"), ("type", JSON.str "anime")], JSON.arr []⟩ :=
  ⟨rfl, rfl⟩

/-- Claim C5: for every non-200 resource GET response, the error raised is
determined by the status — 400 → BadRequest with `errors[0].detail`,
401 → Unauthorized with the body's `error_description` verbatim,
403 → Forbidden, 404 → NotFound with `errors[0].detail`, and any other
status → HTTPException carrying the raw body text and the status. -/
theorem C5_get_error_mapping (r : Response) :
    (r.status = 400 → ∀ m, extractDetail r.body = .ok m →
        Client._get r = .error (.badRequest m))
    ∧ (r.status = 401 → ∀ m, pySubscript r.body "error_description" = .ok m →
        Client._get r = .error (.unauthorized m))
    ∧ (r.status = 403 → ∀ m, pySubscript r.body "error_description" = .ok m →
        Client._get r = .error (.forbidden m))
    ∧ (r.status = 404 → ∀ m, extractDetail r.body = .ok m →
        Client._get r = .error (.notFound m))
    ∧ (r.status ≠ 200 → r.status ≠ 400 → r.status ≠ 401 → r.status ≠ 403 → r.status ≠ 404 →
        Client._get r = .error (.httpException r.text r.status)) := by
  refine ⟨?_, ?_, ?_, ?_, ?_⟩
  · intro h m hm
    simp [Client._get, h, raiseWith, hm]
  · intro h m hm
    simp [Client._get, h, raiseWith, hm]
  · intro h m hm
    simp [Client._get, h, raiseWith, hm]
  · intro h m hm
    simp [Client._get, h, raiseWith, hm]
  · intro h200 h400 h401 h403 h404
    simp [Client._get, h200, h400, h401, h403, h404]

/-- Witness for C5: a concrete 401 response with an `error_description`
raises Unauthorized carrying that message. -/
theorem C5_witness :
    Client._get ⟨401, JSON.obj [("error_description", JSON.str "invalid token")], "body"⟩
      = .error (.unauthorized (JSON.str "invalid token")) :=
  (C5_get_error_mapping ⟨401, JSON.obj [("error_description", JSON.str "invalid token")], "body"⟩).2.1
    rfl (JSON.str "invalid token") rfl

/-- Claim C7 (code bug): `search_anime` on a 200 response with an empty
`data` array returns the empty list, but on a non-empty `data` array it
raises TypeError instead of mapping the elements to Anime models, because
`Anime(..., client=self)` passes a keyword `models.Anime.__init__` does not
declare — shown here for a one-element and a two-element array. -/
theorem C7_search_anime_eval :
    Client.search_anime ⟨200, JSON.obj [("data", JSON.arr [])], ""⟩ = .ok []
    ∧ Client.search_anime ⟨200, JSON.obj [("data", JSON.arr [JSON.obj [("id", JSON.str "1")]])], ""⟩
        = .error (.pyError .typeError)
    ∧ Client.search_anime
        ⟨200, JSON.obj [("data", JSON.arr [JSON.obj [("id", JSON.str "1")], JSON.obj [("id", JSON.str "2")]])], ""⟩
        = .error (.pyError .typeError) :=
  ⟨rfl, rfl, rfl⟩

/-- Claim C9: a successful `authenticate` stores the server's access and
refresh tokens unchanged and sets the expiry to `created_at` plus
`expires_in` (epoch seconds). -/
theorem C9_authenticate_stores_tokens (st : ClientState) (resp : Response)
    (a r : JSON) (c e : Rat)
    (h200 : resp.status = 200)
    (ha : pySubscript resp.body "access_token" = .ok a)
    (hr : pySubscript resp.body "refresh_token" = .ok r)
    (hc : pySubscript resp.body "created_at" = .ok (.num c))
    (he : pySubscript resp.body "expires_in" = .ok (.num e)) :
    Client.authenticate st resp =
      ({ _token := some a, _refresh_token := some r, _token_expires := some (c + e) }, none) := by
  simp [Client.authenticate, Client._post, h200, authSetTokens, ha, hr, hc, he,
    pyTimestamp, pySeconds]

/-- Witness for C9: a concrete token-exchange response. -/
theorem C9_witness :
    Client.authenticate ⟨none, none, none⟩
        ⟨200, JSON.obj [("access_token", JSON.str "A"), ("refresh_token", JSON.str "B"),
                        ("created_at", JSON.num 100), ("expires_in", JSON.num 50)], ""⟩
      = (⟨some (JSON.str "A"), some (JSON.str "B"), some (100 + 50)⟩, none) :=
  C9_authenticate_stores_tokens ⟨none, none, none⟩
    ⟨200, JSON.obj [("access_token", JSON.str "A"), ("refresh_token", JSON.str "B"),
                    ("created_at", JSON.num 100), ("expires_in", JSON.num 50)], ""⟩
    (JSON.str "A") (JSON.str "B") 100 50 rfl rfl rfl rfl rfl

/-- Claim C10 counterexample: a 200 token response that lacks `created_at`
makes `authenticate` raise KeyError after the access and refresh tokens have
already been assigned — the stored auth state is not left as it was. -/
theorem C10_counterexample :
    Client.authenticate ⟨none, none, none⟩
        ⟨200, JSON.obj [("access_token", JSON.str "A"), ("refresh_token", JSON.str "B")], ""⟩
      = (⟨some (JSON.str "A"), some (JSON.str "B"), none⟩, some (.pyError .keyError))
    ∧ (⟨some (JSON.str "A"), some (JSON.str "B"), none⟩ : ClientState) ≠ ⟨none, none, none⟩ :=
  ⟨rfl, by simp⟩

/-- Claim C10 as amended: only a failure of the token-exchange POST itself
(a non-200 status, mapped to a kitsu error) leaves the stored auth state
untouched, for both `authenticate` and `refresh_token`; a 200 response whose
body is missing a token field mutates the state before raising. -/
theorem C10_failed_exchange_preserves_state (st : ClientState) (resp : Response)
    (e : ApiError) (h : Client._post resp = .error e) :
    Client.authenticate st resp = (st, some e)
    ∧ Client.refresh_token st resp = (st, some e) := by
  constructor
  · simp [Client.authenticate, h]
  · simp [Client.refresh_token, h]

theorem titleLoop_obj (ts : List (String × JSON)) (ks : List String) :
    titleLoop (.obj ts) ks = .ok (firstTruthy ts ks) := by
  induction ks with
  | nil => rfl
  | cons k rest ih =>
    simp only [titleLoop, firstTruthy, pyGet]
    cases h : lookupField ts k with
    | none => simp [h, JSON.truthy, ih]
    | some v =>
      cases hv : v.truthy with
      | false => simp [h, hv, ih]
      | true => simp [h, hv, pySubscript_obj]

/-- Claim C2 counterexample: when the payload has no `titles` key at all but
does carry a canonical title, `title` returns None instead of falling back
to the canonical title as the claimed algorithm requires — the KeyError from
the missing `titles` lookup short-circuits the whole accessor. -/
theorem C2_counterexample :
    Anime.title ⟨JSON.obj [("attributes", JSON.obj [("canonicalTitle", JSON.str "Baz")])], JSON.arr []⟩
        = .ok JSON.null
    ∧ Anime.canonical_title ⟨JSON.obj [("attributes", JSON.obj [("canonicalTitle", JSON.str "Baz")])], JSON.arr []⟩
        = .ok (JSON.str "Baz") :=
  ⟨rfl, rfl⟩

/-- Claim C2 as amended: when the `titles` key is present and maps to an
object, `title` returns the first truthy value among `en`, `en_jp`, `ja_jp`,
and otherwise the canonical title (None when that key is also absent); when
the `titles` key is missing, the result is None with no canonical fallback. -/
theorem C2_title_resolution (a : Anime) (fs ats : List (String × JSON))
    (ha : a._payload = .obj fs)
    (hattr : lookupField fs "attributes" = some (.obj ats)) :
    (∀ ts, lookupField ats "titles" = some (.obj ts) →
      a.title = .ok (match firstTruthy ts ["en", "en_jp", "ja_jp"] with
        | some v => v
        | none => (lookupField ats "canonicalTitle").getD .null))
    ∧ (lookupField ats "titles" = none → a.title = .ok .null) := by
  have hT := attrGet_found fs ats "titles" hattr
  have hC := attrGet_found fs ats "canonicalTitle" hattr
  constructor
  · intro ts hts
    rw [hts] at hT
    cases hf : firstTruthy ts ["en", "en_jp", "ja_jp"] with
    | some v =>
      simp [Anime.title, ha, hT, titleLoop_obj, hf, catchKeyD]
    | none =>
      cases hc : lookupField ats "canonicalTitle" with
      | some c =>
        rw [hc] at hC
        simp [Anime.title, Anime.canonical_title, ha, hT, hC, titleLoop_obj, hf, hc, catchKeyD]
      | none =>
        rw [hc] at hC
        simp [Anime.title, Anime.canonical_title, ha, hT, hC, titleLoop_obj, hf, hc, catchKeyD]
  · intro hts
    rw [hts] at hT
    simp [Anime.title, ha, hT, catchKeyD]

/-- Witness for the amended C2: the spec's own first example — titles
`{en: "", en_jp: "Foo", ja_jp: "Bar"}` with canonical `"Baz"` resolve
to `"Foo"`. -/
theorem C2_witness :
    Anime.title ⟨JSON.obj [("attributes", JSON.obj
        [("titles", JSON.obj [("en", JSON.str ""), ("en_jp", JSON.str "Foo"), ("ja_jp", JSON.str "Bar")]),
         ("canonicalTitle", JSON.str "Baz")])], JSON.arr []⟩ = .ok (JSON.str "Foo") := by
  have h := (C2_title_resolution
    ⟨JSON.obj [("attributes", JSON.obj
        [("titles", JSON.obj [("en", JSON.str ""), ("en_jp", JSON.str "Foo"), ("ja_jp", JSON.str "Bar")]),
         ("canonicalTitle", JSON.str "Baz")])], JSON.arr []⟩
    [("attributes", JSON.obj
        [("titles", JSON.obj [("en", JSON.str ""), ("en_jp", JSON.str "Foo"), ("ja_jp", JSON.str "Bar")]),
         ("canonicalTitle", JSON.str "Baz")])]
    [("titles", JSON.obj [("en", JSON.str ""), ("en_jp", JSON.str "Foo"), ("ja_jp", JSON.str "Bar")]),
     ("canonicalTitle", JSON.str "Baz")]
    rfl rfl).1
    [("en", JSON.str ""), ("en_jp", JSON.str "Foo"), ("ja_jp", JSON.str "Bar")] rfl
  exact h

theorem genresLoop_eval (items : List JSON)
    (h : ∀ item ∈ items, ∃ t, pySubscript item "type" = .ok t) :
    genresLoop items = .ok ((items.filter hasGenresTag).map (fun item => (⟨item⟩ : Genre))) := by
  induction items with
  | nil => rfl
  | cons item rest ih =>
    obtain ⟨t, ht⟩ := h item (List.mem_cons_self item rest)
    have ihh := ih (fun i hi => h i (List.mem_cons_of_mem item hi))
    have htag : hasGenresTag item = isTypeTag "genres" t := by
      simp [hasGenresTag, ht]
    cases hb : isTypeTag "genres" t <;>
      simp [genresLoop, ht, ihh, List.filter_cons, htag, hb]

/-- Claim C4 counterexample: an Anime can only be constructed from a payload
(`models.Anime.__init__` takes no session argument at all), and on such a
model `genres` neither fetches anything nor fails — here it quietly projects
the one genre out of the included array, raising no error about a missing
session. -/
theorem C4_counterexample :
    (Anime.init (JSON.obj [("data", JSON.obj [("id", JSON.str "1")]),
        ("included", JSON.arr [JSON.obj [("type", JSON.str "genres"), ("id", JSON.str "2")]])])).map Anime.genres
      = .ok (.ok [⟨JSON.obj [("type", JSON.str "genres"), ("id", JSON.str "2")]⟩]) :=
  rfl

/-- Claim C4 as amended: `genres` is a synchronous projection over the
included array captured at construction — it returns Genre models for
exactly the included items tagged `"type": "genres"`, performs no live
relationship fetch, and never raises a missing-session error (the model has
no session reference; live genre fetching lives in `get_anime_genres`). -/
theorem C4_genres_projection (a : Anime) (items : List JSON)
    (h : a._included_payload = JSON.arr items)
    (hty : ∀ item ∈ items, ∃ t, pySubscript item "type" = .ok t) :
    Anime.genres a = .ok ((items.filter hasGenresTag).map (fun item => (⟨item⟩ : Genre))) := by
  cases items with
  | nil => simp [Anime.genres, h, JSON.truthy, pyIter, genresLoop]
  | cons x rest =>
    simp only [Anime.genres, h, JSON.truthy, List.isEmpty_cons, Bool.not_false, if_true, pyIter]
    simpa using genresLoop_eval (x :: rest) hty

/-- Witness for the amended C4: a two-item included array projects to the
single genre-tagged item. -/
theorem C4_witness :
    Anime.genres ⟨JSON.obj [("id", JSON.str "1")],
        JSON.arr [JSON.obj [("type", JSON.str "genres"), ("id", JSON.str "2")],
                  JSON.obj [("type", JSON.str "episodes"), ("id", JSON.str "3")]]⟩
      = .ok [⟨JSON.obj [("type", JSON.str "genres"), ("id", JSON.str "2")]⟩] := by
  have h := C4_genres_projection
    ⟨JSON.obj [("id", JSON.str "1")],
        JSON.arr [JSON.obj [("type", JSON.str "genres"), ("id", JSON.str "2")],
                  JSON.obj [("type", JSON.str "episodes"), ("id", JSON.str "3")]]⟩
    [JSON.obj [("type", JSON.str "genres"), ("id", JSON.str "2")],
     JSON.obj [("type", JSON.str "episodes"), ("id", JSON.str "3")]]
    rfl
    (by
      intro item hi
      simp only [List.mem_cons, List.not_mem_nil, or_false] at hi
      rcases hi with h1 | h1
      · exact ⟨JSON.str "genres", by rw [h1]; rfl⟩
      · exact ⟨JSON.str "episodes", by rw [h1]; rfl⟩)
  exact h

/-- Claim C6 counterexample: a payload whose `data` value is a present but
empty object — `raw` returns the whole envelope, not the empty `data`
object, because `payload.get("data", {}) or payload` treats a falsy `data`
value as absent. -/
theorem C6_counterexample :
    (Anime.init (JSON.obj [("data", JSON.obj [])])).map Anime.raw
        = .ok (JSON.obj [("data", JSON.obj [])])
    ∧ JSON.obj [("data", JSON.obj [])] ≠ JSON.obj [] :=
  ⟨rfl, by simp⟩

/-- Claim C6 as amended: for every mapping payload, `raw` returns the `data`
value when it is present and truthy (a non-empty object), and the whole
payload itself otherwise — including when `data` is present but empty. -/
theorem C6_raw_projection (p : JSON) (fs : List (String × JSON)) (hp : p = .obj fs) :
    (Anime.init p).map Anime.raw =
      .ok (match lookupField fs "data" with
           | some d => if d.truthy then d else p
           | none => p) := by
  subst hp
  cases h : lookupField fs "data" with
  | none => simp [Anime.init, pyGetD, h, JSON.truthy, Anime.raw]
  | some d =>
    cases hd : d.truthy <;> simp [Anime.init, pyGetD, h, hd, Anime.raw]

/-- Witness for the amended C6: an envelope with a non-empty `data` object
round-trips to exactly that object. -/
theorem C6_witness :
    (Anime.init (JSON.obj [("data", JSON.obj [("id", JSON.str "7")])])).map Anime.raw
      = .ok (JSON.obj [("id", JSON.str "7")]) :=
  C6_raw_projection (JSON.obj [("data", JSON.obj [("id", JSON.str "7")])])
    [("data", JSON.obj [("id", JSON.str "7")])] rfl

/-- Claim C8 counterexample: the synthesized `"Episode n"` fallback is
narrower than claimed — with a titles map present but lacking the locale,
`english_title` returns None (no fallback, since `.get` raises no KeyError),
and with `number = 0` the fallback is skipped (0 is falsy), so
`canonical_title` returns None rather than `"Episode 0"`. -/
theorem C8_counterexample :
    Episode.english_title ⟨JSON.obj [("attributes", JSON.obj
        [("titles", JSON.obj []), ("number", JSON.num 5)])]⟩ = .ok JSON.null
    ∧ Episode.canonical_title ⟨JSON.obj [("attributes", JSON.obj
        [("number", JSON.num 0)])]⟩ = .ok JSON.null :=
  ⟨rfl, rfl⟩

/-- Claim C8 as amended: when the attributes carry neither a
`canonicalTitle` nor a `titles` key, `canonical_title` and every localized
title accessor yield `"Episode n"` for a number attribute converting to a
nonzero integer n, and None when the number is absent (or zero, since the
fallback tests the number's truthiness). -/
theorem C8_episode_title_fallback (e : Episode) (fs ats : List (String × JSON))
    (hp : e._payload = .obj fs)
    (hattr : lookupField fs "attributes" = some (.obj ats))
    (hct : lookupField ats "canonicalTitle" = none)
    (hti : lookupField ats "titles" = none) :
    (∀ v n, lookupField ats "number" = some v → pyInt v = .ok n →
      (Episode.canonical_title e = .ok (episodeTag n)
       ∧ Episode.english_title e = .ok (episodeTag n)
       ∧ Episode.japanese_title e = .ok (episodeTag n)
       ∧ Episode.romaji_title e = .ok (episodeTag n)))
    ∧ (lookupField ats "number" = none →
      (Episode.canonical_title e = .ok JSON.null
       ∧ Episode.english_title e = .ok JSON.null
       ∧ Episode.japanese_title e = .ok JSON.null
       ∧ Episode.romaji_title e = .ok JSON.null)) := by
  have hC := attrGet_found fs ats "canonicalTitle" hattr
  rw [hct] at hC
  have hT := attrGet_found fs ats "titles" hattr
  rw [hti] at hT
  constructor
  · intro v n hv hn
    have hnum : Episode.number e = .ok (some n) := by
      have h := attrGet_found fs ats "number" hattr
      rw [hv] at h
      simp [Episode.number, hp, h, hn]
    have hfall : Episode.title_fallback e = .ok (episodeTag n) := by
      simp only [Episode.title_fallback, hnum, monadBind_ok, episodeTag]
      split <;> simp_all
    refine ⟨?_, ?_, ?_, ?_⟩ <;>
      simp [Episode.canonical_title, Episode.english_title, Episode.japanese_title,
        Episode.romaji_title, hp, hC, hT, hfall]
  · intro hv
    have hnum : Episode.number e = .ok none := by
      have h := attrGet_found fs ats "number" hattr
      rw [hv] at h
      simp [Episode.number, hp, h]
    have hfall : Episode.title_fallback e = .ok JSON.null := by
      simp [Episode.title_fallback, hnum]
    refine ⟨?_, ?_, ?_, ?_⟩ <;>
      simp [Episode.canonical_title, Episode.english_title, Episode.japanese_title,
        Episode.romaji_title, hp, hC, hT, hfall]

/-- Witness for the amended C8: `number = 5` with no titles and no canonical
title synthesizes `"Episode 5"` everywhere; the spec's own example. -/
theorem C8_witness :
    Episode.canonical_title ⟨JSON.obj [("attributes", JSON.obj [("number", JSON.num 5)])]⟩
        = .ok (JSON.str "Episode 5")
    ∧ Episode.english_title ⟨JSON.obj [("attributes", JSON.obj [("number", JSON.num 5)])]⟩
        = .ok (JSON.str "Episode 5") := by
  have h := (C8_episode_title_fallback ⟨JSON.obj [("attributes", JSON.obj [("number", JSON.num 5)])]⟩
    [("attributes", JSON.obj [("number", JSON.num 5)])] [("number", JSON.num 5)]
    rfl rfl rfl rfl).1 (JSON.num 5) 5 rfl rfl
  exact ⟨h.1, h.2.1⟩

/-- Witness for the amended C10: a concrete 500 response leaves a concrete
auth state unchanged. -/
theorem C10_witness :
    Client.authenticate ⟨some (JSON.str "old"), some (JSON.str "oldr"), some 7⟩ ⟨500, JSON.obj [], "down"⟩
      = (⟨some (JSON.str "old"), some (JSON.str "oldr"), some 7⟩, some (.httpException "down" 500))
    ∧ Client.refresh_token ⟨some (JSON.str "old"), some (JSON.str "oldr"), some 7⟩ ⟨500, JSON.obj [], "down"⟩
      = (⟨some (JSON.str "old"), some (JSON.str "oldr"), some 7⟩, some (.httpException "down" 500)) :=
  C10_failed_exchange_preserves_state ⟨some (JSON.str "old"), some (JSON.str "oldr"), some 7⟩
    ⟨500, JSON.obj [], "down"⟩ (.httpException "down" 500) rfl

end Kitsu
